import Mathlib

/-
Verification of the linsky mail client core (account/connection
orchestration and offline synchronization engine) against its
natural-language specification.

The Rust sources are shallowly embedded: every stateful operation becomes a
pure function from an explicit state (plus the outcomes of the network and
parser collaborators, which are external to the verified core) to the new
state together with its Rust return value (`Except` models `Result`).
-/

namespace Linksy

/-- Mirrors `models::account::ConnectionStatus` (src/models/account.rs). -/
inductive ConnectionStatus where
  | Disconnected
  | Connecting
  | Connected
  | Failed
deriving DecidableEq, Repr

/-- Mirrors `models::email::Email` (src/models/email.rs).  The `date` field
(Rust `SystemTime`) is modelled as seconds since the epoch; attachments are
carried by filename only, their payloads being irrelevant to the verified
claims; the keyword field `from` is rendered as `from_addr`. -/
structure Email where
  id : String
  subject : String
  from_addr : String
  from_name : Option String
  to_addrs : List String
  cc : List String
  bcc : List String
  body_text : Option String
  body_html : Option String
  date : Nat
  attachments : List String
  is_read : Bool
  is_flagged : Bool
  headers : List (String × String)
  account_id : String
  folder : String
deriving DecidableEq, Repr

/-- Mirrors `Email::new` (src/models/email.rs). -/
def Email.new : Email where
  id := ""
  subject := ""
  from_addr := ""
  from_name := none
  to_addrs := []
  cc := []
  bcc := []
  body_text := none
  body_html := none
  date := 0
  attachments := []
  is_read := false
  is_flagged := false
  headers := []
  account_id := ""
  folder := "INBOX"

/-- Mirrors the runtime fields of `models::account::Account`
(src/models/account.rs) together with the two configuration-presence
observations `config.imap.is_some()` / `config.pop3.is_some()` that the
orchestration code reads through `has_imap` / `has_pop3`.  The SMTP
configuration is mandatory in the source (`get_smtp_config` is total), so
it needs no presence flag. -/
structure Account where
  id : String
  has_imap : Bool
  has_pop3 : Bool
  imap_status : ConnectionStatus
  smtp_status : ConnectionStatus
  pop3_status : ConnectionStatus
  last_error : Option String
  unread_count : Nat
  total_count : Nat
  folders : List String
deriving DecidableEq, Repr

/-- Mirrors `Account::new` (src/models/account.rs, lines 48-59). -/
def Account.new (id : String) (has_imap has_pop3 : Bool) : Account where
  id := id
  has_imap := has_imap
  has_pop3 := has_pop3
  imap_status := .Disconnected
  smtp_status := .Disconnected
  pop3_status := .Disconnected
  last_error := none
  unread_count := 0
  total_count := 0
  folders := ["INBOX"]

/-! ## Line protocol session: multi-line response framing

`Pop3Client::read_multiline_response` (src/protocols/pop3.rs, lines 206-260)
reads raw lines from the transport.  The transport is modelled as the list
of raw lines that `read_line` successively yields (each still carrying its
terminator, exactly as `read_line` returns it).  A transport that never
yields the sentinel is modelled by exhausting the list, in which case the
function yields `none` (the real code would block). -/

/-- The CRLF stripping performed on each line read
(`if line.ends_with("\r\n") line.truncate(line.len() - 2)`).  Rust
`ends_with(p)` is rendered as equality of the final `p.len()` characters
with `p`, which lets proofs evaluate it by reduction. -/
def strip_crlf (line : String) : String :=
  if line.takeRight 2 = "\r\n" then line.dropRight 2 else line

/-- Mirrors `Pop3Client::read_multiline_response` (src/protocols/pop3.rs,
lines 206-260): strip the terminator from each raw line, stop at the
sentinel line ".", remove one leading character from a line starting with
".." (byte-unstuffing), collect everything else in order. -/
def read_multiline_response : List String → Option (List String)
  | [] => none
  | raw :: rest =>
    let line := strip_crlf raw
    if line = "." then some []
    else
      let line := if line.take 2 = ".." then line.drop 1 else line
      match read_multiline_response rest with
      | some lines => some (line :: lines)
      | none => none

/-- The per-line transformation applied by `read_multiline_response` to a
non-sentinel raw line: strip the terminator, then unstuff a doubled
sentinel. -/
def destuff (raw : String) : String :=
  let line := strip_crlf raw
  if line.take 2 = ".." then line.drop 1 else line

/-! ## Sorting fetched emails

Both `Pop3Client::fetch_emails` and `EmailStorage::get_emails` end with
`emails.sort_by(a, b, b.date.cmp(a.date))`.  Rust `Vec::sort_by` is a
stable sort, so the result is the unique permutation that is
non-increasing in `date` and keeps elements with equal dates in their
original relative order; a stable insertion sort computes exactly that
permutation. -/

/-- The comparator `b.date.cmp(&a.date)` used by the source, as the
newest-first ordering relation. -/
def dateGe (a b : Email) : Prop := b.date ≤ a.date

instance : DecidableRel dateGe := fun a b => Nat.decLe b.date a.date

instance : IsTotal Email dateGe := ⟨fun a b => Nat.le_total b.date a.date⟩

instance : IsTrans Email dateGe :=
  ⟨fun _ _ _ h1 h2 => Nat.le_trans h2 h1⟩

/-- Mirrors `emails.sort_by(a, b, b.date.cmp(a.date))`: stable sort,
newest first. -/
def sort_emails (emails : List Email) : List Email :=
  emails.insertionSort dateGe

/-- The sort returns a permutation of its input. -/
theorem sort_emails_perm (l : List Email) : List.Perm (sort_emails l) l :=
  List.perm_insertionSort dateGe l

/-- The sort output is non-increasing in `date` (newest first). -/
theorem sort_emails_sorted (l : List Email) :
    (sort_emails l).Pairwise dateGe :=
  List.sorted_insertionSort dateGe l

theorem filter_date_orderedInsert (d : Nat) (x : Email) (l : List Email) :
    (List.orderedInsert dateGe x l).filter (fun e => e.date == d) =
      (x :: l).filter (fun e => e.date == d) := by
  induction l with
  | nil => rfl
  | cons y ys ih =>
    by_cases hxy : dateGe x y
    · simp [List.orderedInsert, hxy]
    · have hlt : x.date < y.date := by
        simp only [dateGe, not_le] at hxy
        exact hxy
      simp only [List.orderedInsert, if_neg hxy]
      by_cases hx : x.date = d
      · have hy : ¬ (y.date = d) := by omega
        simp only [List.filter_cons, ih]
        simp [hx, hy]
      · simp only [List.filter_cons, ih]
        by_cases hy : y.date = d
        · simp [hx, hy]
        · simp [hx, hy]

/-- Stability of the sort: for every date value, the equal-dated emails
appear in the output in exactly their input (server-reported) order. -/
theorem sort_emails_filter_date (d : Nat) (l : List Email) :
    (sort_emails l).filter (fun e => e.date == d) =
      l.filter (fun e => e.date == d) := by
  induction l with
  | nil => rfl
  | cons x xs ih =>
    simp only [sort_emails, List.insertionSort] at *
    rw [filter_date_orderedInsert]
    simp [List.filter_cons, ih]

/-! ## Cache (Storage)

`EmailStorage` (src/storage/mod.rs) is a sled key-value store with keys
`email:accountId:folder:messageId`.  It is modelled as a list of emails in
which at most one email exists per key (`store_email` filters out the old
entry before appending, mirroring the upsert of `db.insert`). -/

/-- The composite key `email:accountId:folder:messageId` under which
`store_email` files an email. -/
def email_key (e : Email) : String × String × String :=
  (e.account_id, e.folder, e.id)

/-- The cache state: the set of stored emails, at most one per key. -/
def Storage := List Email

/-- Mirrors `EmailStorage::store_email` (src/storage/mod.rs, lines 38-50):
`db.insert` overwrites the value previously stored under the same key. -/
def store_email (db : Storage) (e : Email) : Storage :=
  (List.filter (fun x => ¬ email_key x = email_key e) db) ++ [e]

/-- Mirrors `EmailStorage::get_email` (src/storage/mod.rs, lines 62-74). -/
def get_email (db : Storage) (account_id folder email_id : String) :
    Option Email :=
  List.find? (fun x => email_key x = (account_id, folder, email_id)) db

/-- Mirrors `EmailStorage::get_emails` (src/storage/mod.rs, lines 84-101):
collect every email whose key starts with `email:accountId:folder:`, then
sort newest first. -/
def get_emails (db : Storage) (account_id folder : String) : List Email :=
  sort_emails
    (List.filter (fun x => x.account_id = account_id ∧ x.folder = folder) db)

/-- Mirrors `EmailStorage::update_email` (src/storage/mod.rs, lines
131-134), which just calls `store_email`. -/
def update_email (db : Storage) (e : Email) : Storage :=
  store_email db e

theorem get_email_store_email_self (db : Storage) (e : Email) :
    get_email (store_email db e) e.account_id e.folder e.id = some e := by
  unfold get_email store_email
  induction db with
  | nil => simp [List.find?, email_key]
  | cons x xs ih =>
    rw [List.filter_cons]
    by_cases hx : email_key x = email_key e
    · rw [if_neg (by simp [hx])]
      exact ih
    · have hxk : ¬ email_key x = (e.account_id, e.folder, e.id) := hx
      rw [if_pos (by simp [hx]), List.cons_append,
        List.find?_cons_of_neg _ (by simpa using hxk)]
      exact ih

theorem get_email_store_email_other (db : Storage) (e : Email)
    (a f i : String) (hne : ¬ (a, f, i) = email_key e) :
    get_email (store_email db e) a f i = get_email db a f i := by
  unfold get_email store_email
  induction db with
  | nil =>
    have h2 : ¬ email_key e = (a, f, i) := fun h => hne h.symm
    simp [List.find?, h2]
  | cons x xs ih =>
    rw [List.filter_cons]
    by_cases hx : email_key x = email_key e
    · have hxk : ¬ email_key x = (a, f, i) := by
        rw [hx]; exact fun h => hne h.symm
      rw [if_neg (by simp [hx]), ih,
        List.find?_cons_of_neg _ (by simpa using hxk)]
    · rw [if_pos (by simp [hx]), List.cons_append]
      by_cases hxa : email_key x = (a, f, i)
      · rw [List.find?_cons_of_pos _ (by simpa using hxa),
          List.find?_cons_of_pos _ (by simpa using hxa)]
      · rw [List.find?_cons_of_neg _ (by simpa using hxa),
          List.find?_cons_of_neg _ (by simpa using hxa)]
        exact ih

/-! ## POP3 client

The network is external: each operation is parameterised by the replies the
server would produce.  `Except String` models `anyhow::Result`. -/

/-- Accumulator-based splitter behind `split_whitespace`. -/
def split_ws_aux : List Char → List Char → List String
  | [], acc => if acc = [] then [] else [String.mk acc.reverse]
  | c :: cs, acc =>
    if c.isWhitespace then
      if acc = [] then split_ws_aux cs []
      else String.mk acc.reverse :: split_ws_aux cs []
    else split_ws_aux cs (c :: acc)

/-- Rust `str::split_whitespace`: maximal non-whitespace runs, empty
pieces discarded. -/
def split_whitespace (s : String) : List String :=
  split_ws_aux s.data []

/-- Rust `str::parse::<usize>` on the digit strings the STAT reply
carries: at least one character, all of them decimal digits (a leading
sign, which Rust would also accept, never reaches this code path from a
numeric STAT field and is rendered as a parse failure). -/
def parse_usize (s : String) : Option Nat :=
  if s.data ≠ [] ∧ s.data.all (fun c => c.isDigit) then
    some (s.data.foldl (fun n c => n * 10 + (c.toNat - 48)) 0)
  else none

/-- The strict STAT parsing done inside `Pop3Client::fetch_emails`
(src/protocols/pop3.rs, lines 297-309): the reply must carry the positive
status token (`starts_with` rendered as equality of the first three
characters), split into at least three whitespace-separated parts, and its
second part must parse as a number. -/
def parse_stat (response : String) : Except String Nat :=
  if ¬ response.take 3 = "+OK" then
    .error ("STAT command failed: " ++ response)
  else
    let parts := split_whitespace response
    if parts.length < 3 then .error ("Invalid STAT response: " ++ response)
    else
      match parts[1]?.bind (fun p => parse_usize p) with
      | some n => .ok n
      | none => .error "invalid digit found in string"

/-- The outcome of one RETR exchange inside `Pop3Client::fetch_emails`
(src/protocols/pop3.rs, lines 329-353): either a positive reply whose body
parses into an email (the account id and folder of which the code then
overwrites), or a negative reply (logged and skipped), or a body that
`Email::parse_from_raw` rejects (logged and skipped). -/
inductive RetrOutcome where
  | success (e : Email)
  | rejected (response : String)
  | parse_failure
deriving DecidableEq, Repr

/-- Mirrors `Pop3Client::fetch_emails` (src/protocols/pop3.rs, lines
290-359).  `pop3_conn` is whether `self.connection` is `Some`;
`stat_response` is the single-line reply to STAT; `retr` gives the outcome
of the RETR exchange for each 1-based message number.  Returns the updated
account record and the Rust return value. -/
def fetch_emails (a : Account) (pop3_conn : Bool) (stat_response : String)
    (retr : Nat → RetrOutcome) (limit : Nat) :
    Account × Except String (List Email) :=
  if ¬ pop3_conn then (a, .error "Not connected to POP3 server")
  else
    match parse_stat stat_response with
    | .error e => (a, .error e)
    | .ok count =>
      let a := { a with total_count := count, unread_count := count }
      let start := if count > limit then count - limit else 0
      let emails := (List.range (count - start)).filterMap (fun i =>
        match retr (start + i + 1) with
        | .success e => some { e with account_id := a.id, folder := "INBOX" }
        | .rejected _ => none
        | .parse_failure => none)
      (a, .ok (sort_emails emails))

/-- Mirrors `Pop3Client::disconnect` (src/protocols/pop3.rs, lines
266-281).  `conn` is whether `self.connection` is `Some`; `quit_send` is
the transport result of writing the QUIT command (its reply is read and
discarded).  Returns the account, the new connection presence and the Rust
return value: a failing QUIT write propagates through the question-mark
operator before the status or the connection field are touched. -/
def pop3_disconnect (a : Account) (conn : Bool)
    (quit_send : Except String Unit) :
    Account × Bool × Except String Unit :=
  match conn, quit_send with
  | true, .error e => (a, true, .error e)
  | true, .ok _ => ({ a with pop3_status := .Disconnected }, false, .ok ())
  | false, _ => ({ a with pop3_status := .Disconnected }, false, .ok ())

/-- Mirrors `ImapClient::disconnect` (src/protocols/imap.rs, lines
106-118): `session.logout()?` propagates a logout failure before the
session or the status are touched. -/
def imap_disconnect (a : Account) (session : Bool)
    (logout : Except String Unit) :
    Account × Bool × Except String Unit :=
  match session, logout with
  | true, .error e => (a, true, .error e)
  | true, .ok _ => ({ a with imap_status := .Disconnected }, false, .ok ())
  | false, _ => ({ a with imap_status := .Disconnected }, false, .ok ())

/-- Mirrors `SmtpClient::disconnect` (src/protocols/smtp.rs, lines
101-108): drop the transport, set the status, never fail. -/
def smtp_disconnect (a : Account) : Account × Bool × Except String Unit :=
  ({ a with smtp_status := .Disconnected }, false, .ok ())

/-- The network outcome of `Pop3Client::create_connection`
(src/protocols/pop3.rs, lines 87-145): on success the greeting, USER, PASS
and STAT exchanges all carried the positive token, and `count` is the
message count if the STAT reply had at least three parts with a parseable
number (the lenient branch of lines 134-142); any failure carries the
error text. -/
inductive Pop3ConnOutcome where
  | success (count : Option Nat)
  | failure (e : String)
deriving DecidableEq, Repr

/-- The network outcome of `ImapClient::create_client`
(src/protocols/imap.rs, lines 74-100): a successful TLS connect, login and
LIST yields the mailbox names, which the code writes onto the account. -/
inductive ImapConnOutcome where
  | success (folders : List String)
  | failure (e : String)
deriving DecidableEq, Repr

/-- The network outcome of building and testing the SMTP transport
(src/protocols/smtp.rs, lines 52-55). -/
inductive SmtpConnOutcome where
  | success
  | failure (e : String)
deriving DecidableEq, Repr

/-- Mirrors `Pop3Client::connect` (src/protocols/pop3.rs, lines 51-78):
fail with the config-missing error if POP3 is not configured; otherwise
set the status to Connecting, attempt the connection, and on success store
the connection, write the STAT counts, set the status to Connected and
clear the last error.  On failure the error propagates with the status
still at Connecting. -/
def pop3_connect (a : Account) (conn : Bool) (o : Pop3ConnOutcome) :
    Account × Bool × Except String Unit :=
  if ¬ a.has_pop3 then
    (a, conn, .error "POP3 is not configured for this account")
  else
    let a1 := { a with pop3_status := .Connecting }
    match o with
    | .failure e => (a1, conn, .error e)
    | .success count =>
      let a2 := match count with
        | some n => { a1 with total_count := n, unread_count := n }
        | none => a1
      ({ a2 with pop3_status := .Connected, last_error := none },
        true, .ok ())

/-- Mirrors `ImapClient::connect` (src/protocols/imap.rs, lines 38-65):
fail with the config-missing error if IMAP is not configured; otherwise
set the status to Connecting, attempt the connection, and on success store
the session, write the folder list, set the status to Connected and clear
the last error.  On failure the error propagates with the status still at
Connecting. -/
def imap_connect (a : Account) (session : Bool) (o : ImapConnOutcome) :
    Account × Bool × Except String Unit :=
  if ¬ a.has_imap then
    (a, session, .error "IMAP is not configured for this account")
  else
    let a1 := { a with imap_status := .Connecting }
    match o with
    | .failure e => (a1, session, .error e)
    | .success folders =>
      ({ a1 with
          folders := folders, last_error := none,
          imap_status := ConnectionStatus.Connected }, true, .ok ())

/-- Mirrors `SmtpClient::connect` (src/protocols/smtp.rs, lines 41-66):
the SMTP configuration always exists, so the status moves to Connecting
unconditionally; on success the transport is stored, the status becomes
Connected and the last error is cleared; on failure the error propagates
with the status still at Connecting. -/
def smtp_connect (a : Account) (transport : Bool) (o : SmtpConnOutcome) :
    Account × Bool × Except String Unit :=
  let a1 := { a with smtp_status := .Connecting }
  match o with
  | .failure e => (a1, transport, .error e)
  | .success =>
    ({ a1 with smtp_status := .Connected, last_error := none },
      true, .ok ())

/-! ## Account Orchestrator (`state::account_manager::AccountManager`) -/

/-- The connection-holding halves of the three protocol clients bound to
one account: whether `ImapClient.session`, `Pop3Client.connection` and
`SmtpClient.transport` are `Some`. -/
structure Clients where
  imap : Bool
  pop3 : Bool
  smtp : Bool
deriving DecidableEq, Repr

/-- The IMAP block of `AccountManager::connect_account`
(src/state/account_manager.rs, lines 108-135): attempt IMAP only if
configured; a failure writes Failed status plus the error text onto the
account record and is not raised; the flag records whether this attempt
succeeded. -/
def attempt_imap (a : Account) (c : Clients) (io : ImapConnOutcome) :
    Account × Clients × Bool :=
  if a.has_imap then
    match imap_connect a c.imap io with
    | (a1, s1, .error e) =>
      ({ a1 with imap_status := .Failed, last_error := some e },
        { c with imap := s1 }, false)
    | (a1, s1, .ok _) => (a1, { c with imap := s1 }, true)
  else (a, c, false)

/-- The POP3 block of `AccountManager::connect_account`
(src/state/account_manager.rs, lines 137-164). -/
def attempt_pop3 (a : Account) (c : Clients) (po : Pop3ConnOutcome) :
    Account × Clients × Bool :=
  if a.has_pop3 then
    match pop3_connect a c.pop3 po with
    | (a1, s1, .error e) =>
      ({ a1 with pop3_status := .Failed, last_error := some e },
        { c with pop3 := s1 }, false)
    | (a1, s1, .ok _) => (a1, { c with pop3 := s1 }, true)
  else (a, c, false)

/-- The SMTP block of `AccountManager::connect_account`
(src/state/account_manager.rs, lines 166-185): SMTP is always
attempted. -/
def attempt_smtp (a : Account) (c : Clients) (so : SmtpConnOutcome) :
    Account × Clients × Bool :=
  match smtp_connect a c.smtp so with
  | (a1, s1, .error e) =>
    ({ a1 with smtp_status := .Failed, last_error := some e },
      { c with smtp := s1 }, false)
  | (a1, s1, .ok _) => (a1, { c with smtp := s1 }, true)

/-- The body of `AccountManager::connect_account` for one in-range account
(src/state/account_manager.rs, lines 105-187): attempt IMAP if configured,
then POP3 if configured, then SMTP unconditionally; each attempt is
independent; the returned flag is whether any attempt succeeded
(`any_connection_successful` starts false and is only ever set). -/
def connect_account_one (a : Account) (c : Clients) (io : ImapConnOutcome)
    (po : Pop3ConnOutcome) (so : SmtpConnOutcome) :
    Account × Clients × Bool :=
  let s1 := attempt_imap a c io
  let s2 := attempt_pop3 s1.1 s1.2.1 po
  let s3 := attempt_smtp s2.1 s2.2.1 so
  (s3.1, s3.2.1, s1.2.2 || s2.2.2 || s3.2.2)

/-- Mirrors `AccountManager::connect_account`
(src/state/account_manager.rs, lines 100-188): an out-of-range index
returns `Ok(false)` at once; otherwise the indexed account is connected
and the updated record stored back. -/
def connect_account (accounts : List (Account × Clients)) (index : Nat)
    (io : ImapConnOutcome) (po : Pop3ConnOutcome) (so : SmtpConnOutcome) :
    List (Account × Clients) × Except String Bool :=
  if h : accounts.length ≤ index then (accounts, .ok false)
  else
    let ac := accounts.get ⟨index, by omega⟩
    let r := connect_account_one ac.1 ac.2 io po so
    (accounts.set index (r.1, r.2.1), .ok r.2.2)

/-- The body of `AccountManager::retry_connections` for one in-range
account (src/state/account_manager.rs, lines 234-315): re-attempt exactly
the protocols currently in Failed status (IMAP and POP3 additionally
require configuration); a failing retry records only the error text (the
status is whatever the client connect left behind). -/
def retry_connections_one (a : Account) (c : Clients)
    (io : ImapConnOutcome) (po : Pop3ConnOutcome) (so : SmtpConnOutcome) :
    Account × Clients :=
  let step1 : Account × Clients :=
    if a.has_imap ∧ a.imap_status = .Failed then
      match imap_connect a c.imap io with
      | (a1, s1, .error e) =>
        ({ a1 with last_error := some e }, { c with imap := s1 })
      | (a1, s1, .ok _) => (a1, { c with imap := s1 })
    else (a, c)
  let a := step1.1
  let c := step1.2
  let step2 : Account × Clients :=
    if a.has_pop3 ∧ a.pop3_status = .Failed then
      match pop3_connect a c.pop3 po with
      | (a1, s1, .error e) =>
        ({ a1 with last_error := some e }, { c with pop3 := s1 })
      | (a1, s1, .ok _) => (a1, { c with pop3 := s1 })
    else (a, c)
  let a := step2.1
  let c := step2.2
  if a.smtp_status = .Failed then
    match smtp_connect a c.smtp so with
    | (a1, s1, .error e) =>
      ({ a1 with last_error := some e }, { c with smtp := s1 })
    | (a1, s1, .ok _) => (a1, { c with smtp := s1 })
  else (a, c)

/-- Mirrors `AccountManager::retry_connections`
(src/state/account_manager.rs, lines 229-316): an out-of-range index
returns `Ok(())` at once. -/
def retry_connections (accounts : List (Account × Clients)) (index : Nat)
    (io : ImapConnOutcome) (po : Pop3ConnOutcome) (so : SmtpConnOutcome) :
    List (Account × Clients) × Except String Unit :=
  if h : accounts.length ≤ index then (accounts, .ok ())
  else
    let ac := accounts.get ⟨index, by omega⟩
    let r := retry_connections_one ac.1 ac.2 io po so
    (accounts.set index r, .ok ())

/-! ## Connection Health Loop
(`controller::connection_manager::ConnectionManager`)

One iteration of the per-account body inside the background task of
`start_background_checker` (src/controller/connection_manager.rs, lines
88-170). -/

/-- The IMAP part of one health-loop tick for one account: when configured
and Connected, probe liveness through `is_connected` (which in the source
is a pure read of the very status just observed, so the demotion branch is
dead); when configured and Disconnected, attempt a reconnect, promote to
Connected on success and only log on failure. -/
def tick_imap (a : Account) (c : Clients) (io : ImapConnOutcome) :
    Account × Clients :=
  if a.has_imap then
    if a.imap_status = .Connected then
      if ¬ (a.imap_status = .Connected) then
        ({ a with imap_status := .Disconnected }, c)
      else (a, c)
    else if a.imap_status = .Disconnected then
      match imap_connect a c.imap io with
      | (a1, s1, .error _) => (a1, { c with imap := s1 })
      | (a1, s1, .ok _) =>
        ({ a1 with imap_status := .Connected }, { c with imap := s1 })
    else (a, c)
  else (a, c)

/-- The POP3 part of one health-loop tick for one account
(src/controller/connection_manager.rs, lines 128-151): when configured and
Disconnected, attempt a reconnect, promote to Connected on success and
only log on failure. -/
def tick_pop3 (a : Account) (c : Clients) (po : Pop3ConnOutcome) :
    Account × Clients :=
  if a.has_pop3 then
    if a.pop3_status = .Disconnected then
      match pop3_connect a c.pop3 po with
      | (a1, s1, .error _) => (a1, { c with pop3 := s1 })
      | (a1, s1, .ok _) =>
        ({ a1 with pop3_status := .Connected }, { c with pop3 := s1 })
    else (a, c)
  else (a, c)

/-- The SMTP part of one health-loop tick for one account
(src/controller/connection_manager.rs, lines 153-169). -/
def tick_smtp (a : Account) (c : Clients) (so : SmtpConnOutcome) :
    Account × Clients :=
  if a.smtp_status = .Disconnected then
    match smtp_connect a c.smtp so with
    | (a1, s1, .error _) => (a1, { c with smtp := s1 })
    | (a1, s1, .ok _) =>
      ({ a1 with smtp_status := .Connected }, { c with smtp := s1 })
  else (a, c)

/-- One health-loop tick for one account: the IMAP, POP3 and SMTP checks
in source order. -/
def check_account_connections (a : Account) (c : Clients)
    (io : ImapConnOutcome) (po : Pop3ConnOutcome) (so : SmtpConnOutcome) :
    Account × Clients :=
  let s1 := tick_imap a c io
  let s2 := tick_pop3 s1.1 s1.2 po
  tick_smtp s2.1 s2.2 so

/-! ## Synchronization Engine (`state::email_manager::EmailManager`) -/

/-- Mirrors `EmailManager::load_emails` (src/state/email_manager.rs, lines
42-121).  The account fields are the ones copied out under the lock;
`imap_client` / `pop3_client` are whether the respective `Option` argument
is `Some`; `imap_fetch` / `pop3_fetch` are the results the client fetch
calls would produce.  The cached emails are read first; a connected
retrieval protocol whose fetch succeeds has every fetched message stored
and its result replaces the baseline; every other path returns the cached
baseline.  The Rust function returns `Ok` on every path. -/
def load_emails (db : Storage) (a : Account)
    (imap_client pop3_client : Bool)
    (imap_fetch pop3_fetch : Except String (List Email)) (folder : String) :
    Storage × List Email :=
  let emails := get_emails db a.id folder
  if a.has_imap ∧ a.imap_status = .Connected ∧ imap_client then
    match imap_fetch with
    | .ok fetched => (fetched.foldl store_email db, fetched)
    | .error _ => (db, emails)
  else if a.has_pop3 ∧ a.pop3_status = .Connected ∧ pop3_client then
    match pop3_fetch with
    | .ok fetched => (fetched.foldl store_email db, fetched)
    | .error _ => (db, emails)
  else (db, emails)

/-- Mirrors `EmailManager::mark_as_read` (src/state/email_manager.rs,
lines 132-155).  `remote` is the result of
`ImapClient::mark_as_read(folder, email.id)`: a remote failure returns the
error before the storage is touched; on remote success a clone of the
email with `is_read` set is written back through `update_email`. -/
def mark_as_read (db : Storage) (remote : Except String Unit)
    (email : Email) : Storage × Except String Unit :=
  match remote with
  | .error e => (db, .error e)
  | .ok _ => (update_email db { email with is_read := true }, .ok ())

/-! ## Claims -/

/-- C1: for every sequence of input lines, `read_multiline_response`
consumes lines until the first line equal to the sentinel ".", removes
exactly one leading character from any line that begins with two sentinel
characters, and returns the ordered content lines excluding the sentinel
line. -/
theorem c1_read_multiline_response (pre post : List String) (s : String)
    (hpre : ∀ l ∈ pre, ¬ strip_crlf l = ".")
    (hs : strip_crlf s = ".") :
    read_multiline_response (pre ++ s :: post) = some (pre.map destuff) := by
  induction pre with
  | nil => simp [read_multiline_response, hs]
  | cons x xs ih =>
    have hx : ¬ strip_crlf x = "." := hpre x (by simp)
    have ih2 := ih (fun l hl => hpre l (by simp [hl]))
    simp only [List.cons_append, read_multiline_response, List.map_cons]
    rw [if_neg hx, List.append_eq, ih2]
    simp [destuff]

/-- C1 witness: the input byte sequence of the two raw lines
"..hello CRLF" and ". CRLF" yields exactly the single content line
".hello". -/
theorem c1_read_multiline_response_witness :
    read_multiline_response ["..hello\r\n", ".\r\n"] = some [".hello"] :=
  (c1_read_multiline_response ["..hello\r\n"] [] ".\r\n"
    (by decide) (by decide)).trans (by decide)

/-! Preservation lemmas: each per-protocol block of `connect_account`
touches only its own status field and never the configuration flags. -/

theorem attempt_imap_pop3_status (a : Account) (c : Clients)
    (io : ImapConnOutcome) :
    ((attempt_imap a c io).1).pop3_status = a.pop3_status := by
  rcases io with fs | e <;> by_cases h : a.has_imap <;>
    simp [attempt_imap, imap_connect, h]

theorem attempt_imap_has_pop3 (a : Account) (c : Clients)
    (io : ImapConnOutcome) :
    ((attempt_imap a c io).1).has_pop3 = a.has_pop3 := by
  rcases io with fs | e <;> by_cases h : a.has_imap <;>
    simp [attempt_imap, imap_connect, h]

theorem attempt_pop3_imap_status (a : Account) (c : Clients)
    (po : Pop3ConnOutcome) :
    ((attempt_pop3 a c po).1).imap_status = a.imap_status := by
  rcases po with cnt | e <;> (try rcases cnt with _ | n) <;>
    by_cases h : a.has_pop3 <;>
    simp [attempt_pop3, pop3_connect, h]

theorem attempt_smtp_imap_status (a : Account) (c : Clients)
    (so : SmtpConnOutcome) :
    ((attempt_smtp a c so).1).imap_status = a.imap_status := by
  rcases so with _ | e <;> simp [attempt_smtp, smtp_connect]

theorem attempt_smtp_pop3_status (a : Account) (c : Clients)
    (so : SmtpConnOutcome) :
    ((attempt_smtp a c so).1).pop3_status = a.pop3_status := by
  rcases so with _ | e <;> simp [attempt_smtp, smtp_connect]

theorem attempt_imap_not_configured (a : Account) (c : Clients)
    (io : ImapConnOutcome) (h : a.has_imap = false) :
    attempt_imap a c io = (a, c, false) := by
  simp [attempt_imap, h]

theorem attempt_pop3_not_configured (a : Account) (c : Clients)
    (po : Pop3ConnOutcome) (h : a.has_pop3 = false) :
    attempt_pop3 a c po = (a, c, false) := by
  simp [attempt_pop3, h]

theorem attempt_imap_failure (a : Account) (c : Clients) (e : String)
    (h : a.has_imap = true) :
    (attempt_imap a c (.failure e)).1.imap_status = .Failed ∧
      (attempt_imap a c (.failure e)).1.last_error = some e := by
  simp [attempt_imap, imap_connect, h]

theorem attempt_pop3_failure (a : Account) (c : Clients) (e : String)
    (h : a.has_pop3 = true) :
    (attempt_pop3 a c (.failure e)).1.pop3_status = .Failed ∧
      (attempt_pop3 a c (.failure e)).1.last_error = some e := by
  simp [attempt_pop3, pop3_connect, h]

theorem attempt_smtp_failure (a : Account) (c : Clients) (e : String) :
    (attempt_smtp a c (.failure e)).1.smtp_status = .Failed ∧
      (attempt_smtp a c (.failure e)).1.last_error = some e := by
  simp [attempt_smtp, smtp_connect]

/-- C3: for every account whose configuration contains no IMAP
(respectively no POP3) settings, `connect_account` does not attempt that
protocol and does not write its connection-status field, so the status
never moves away from Disconnected. -/
theorem c3_connect_account_unconfigured (a : Account) (c : Clients)
    (io : ImapConnOutcome) (po : Pop3ConnOutcome) (so : SmtpConnOutcome) :
    (a.has_imap = false →
      ((connect_account_one a c io po so).1.imap_status = a.imap_status ∧
        (a.imap_status = .Disconnected →
          (connect_account_one a c io po so).1.imap_status =
            .Disconnected))) ∧
    (a.has_pop3 = false →
      ((connect_account_one a c io po so).1.pop3_status = a.pop3_status ∧
        (a.pop3_status = .Disconnected →
          (connect_account_one a c io po so).1.pop3_status =
            .Disconnected))) := by
  constructor
  · intro h
    have h1 :
        (connect_account_one a c io po so).1.imap_status = a.imap_status := by
      unfold connect_account_one
      rw [attempt_imap_not_configured a c io h]
      rw [attempt_smtp_imap_status, attempt_pop3_imap_status]
    exact ⟨h1, fun hd => h1.trans hd⟩
  · intro h
    have h1 :
        (connect_account_one a c io po so).1.pop3_status = a.pop3_status := by
      unfold connect_account_one
      rw [attempt_smtp_pop3_status]
      rw [attempt_pop3_not_configured _ _ po
        ((attempt_imap_has_pop3 a c io).trans h)]
      rw [attempt_imap_pop3_status]
    exact ⟨h1, fun hd => h1.trans hd⟩

/-- C3 witness: an account configured with neither retrieval protocol
keeps both statuses at Disconnected through `connect_account`. -/
theorem c3_connect_account_unconfigured_witness :
    (connect_account_one (Account.new "a" false false)
        ⟨false, false, false⟩ (.failure "x") (.failure "y")
        .success).1.imap_status = .Disconnected ∧
      (connect_account_one (Account.new "a" false false)
        ⟨false, false, false⟩ (.failure "x") (.failure "y")
        .success).1.pop3_status = .Disconnected := by
  have h := c3_connect_account_unconfigured (Account.new "a" false false)
    ⟨false, false, false⟩ (.failure "x") (.failure "y") .success
  exact ⟨(h.1 (by decide)).2 (by decide), (h.2 (by decide)).2 (by decide)⟩

/-- C9: an out-of-range account index makes `connect_account` return
`Ok(false)` and `retry_connections` return `Ok(())`, both without touching
any account record or client state. -/
theorem c9_out_of_range_noop (accounts : List (Account × Clients))
    (index : Nat) (io : ImapConnOutcome) (po : Pop3ConnOutcome)
    (so : SmtpConnOutcome) (h : accounts.length ≤ index) :
    connect_account accounts index io po so = (accounts, .ok false) ∧
      retry_connections accounts index io po so = (accounts, .ok ()) := by
  constructor
  · simp [connect_account, h]
  · simp [retry_connections, h]

/-- C9 witness: index 0 on an empty account list. -/
theorem c9_out_of_range_noop_witness :
    connect_account [] 0 (.failure "x") (.failure "y") .success =
        ([], .ok false) ∧
      retry_connections [] 0 (.failure "x") (.failure "y") .success =
        ([], .ok ()) :=
  c9_out_of_range_noop [] 0 (.failure "x") (.failure "y") .success
    (by decide)

/-- C5: every protocol client connect fails if its configuration is
absent (SMTP configuration is mandatory, so it has no absent case);
otherwise the status moves to Connecting before the attempt (visible in
the state a failing attempt leaves behind at the client level); success
sets Connected and clears the last error; a failure, handled by
`connect_account`, sets Failed and records the error text on the account
record (the POP3 and IMAP Failed marks persist to the end of
`connect_account`; the error text of a protocol that fails later in the
sequence may overwrite an earlier one, so it is stated at the handling
step, and at the orchestrator level for SMTP, which is attempted
last). -/
theorem c5_protocol_client_connect (a : Account) (c : Clients)
    (conn sess trans : Bool) (e : String) (cnt : Option Nat)
    (fs : List String) (io : ImapConnOutcome) (po : Pop3ConnOutcome)
    (so : SmtpConnOutcome) :
    (a.has_pop3 = false →
      pop3_connect a conn po =
        (a, conn, .error "POP3 is not configured for this account")) ∧
    (a.has_pop3 = true →
      pop3_connect a conn (.failure e) =
        ({ a with pop3_status := .Connecting }, conn, .error e)) ∧
    (a.has_pop3 = true →
      ((pop3_connect a conn (.success cnt)).1.pop3_status = .Connected ∧
        (pop3_connect a conn (.success cnt)).1.last_error = none ∧
        (pop3_connect a conn (.success cnt)).2.2 = .ok ())) ∧
    (a.has_pop3 = true →
      ((attempt_pop3 a c (.failure e)).1.pop3_status = .Failed ∧
        (attempt_pop3 a c (.failure e)).1.last_error = some e)) ∧
    (a.has_pop3 = true →
      (connect_account_one a c io (.failure e) so).1.pop3_status =
        .Failed) ∧
    (a.has_imap = false →
      imap_connect a sess io =
        (a, sess, .error "IMAP is not configured for this account")) ∧
    (a.has_imap = true →
      imap_connect a sess (.failure e) =
        ({ a with imap_status := .Connecting }, sess, .error e)) ∧
    (a.has_imap = true →
      ((imap_connect a sess (.success fs)).1.imap_status = .Connected ∧
        (imap_connect a sess (.success fs)).1.last_error = none ∧
        (imap_connect a sess (.success fs)).2.2 = .ok ())) ∧
    (a.has_imap = true →
      ((attempt_imap a c (.failure e)).1.imap_status = .Failed ∧
        (attempt_imap a c (.failure e)).1.last_error = some e)) ∧
    (a.has_imap = true →
      (connect_account_one a c (.failure e) po so).1.imap_status =
        .Failed) ∧
    (smtp_connect a trans (.failure e) =
      ({ a with smtp_status := .Connecting }, trans, .error e)) ∧
    ((smtp_connect a trans .success).1.smtp_status = .Connected ∧
      (smtp_connect a trans .success).1.last_error = none ∧
      (smtp_connect a trans .success).2.2 = .ok ()) ∧
    ((connect_account_one a c io po (.failure e)).1.smtp_status =
        .Failed ∧
      (connect_account_one a c io po (.failure e)).1.last_error =
        some e) := by
  refine ⟨fun h => ?_, fun h => ?_, fun h => ?_, fun h => ?_, fun h => ?_,
    fun h => ?_, fun h => ?_, fun h => ?_, fun h => ?_, fun h => ?_,
    ?_, ?_, ?_⟩
  · simp [pop3_connect, h]
  · simp [pop3_connect, h]
  · simp [pop3_connect, h]
  · exact attempt_pop3_failure a c e h
  · have hp2 : ((attempt_imap a c io).1).has_pop3 = true :=
      (attempt_imap_has_pop3 a c io).trans h
    simp only [connect_account_one]
    rw [attempt_smtp_pop3_status]
    exact (attempt_pop3_failure _ _ e hp2).1
  · simp [imap_connect, h]
  · simp [imap_connect, h]
  · simp [imap_connect, h]
  · exact attempt_imap_failure a c e h
  · simp only [connect_account_one]
    rw [attempt_smtp_imap_status, attempt_pop3_imap_status]
    exact (attempt_imap_failure _ _ e h).1
  · simp [smtp_connect]
  · simp [smtp_connect]
  · simp only [connect_account_one]
    exact attempt_smtp_failure _ _ e

/-- C5 witness: a fully configured account; a failing POP3 attempt inside
`connect_account` ends with Failed status, and a successful client-level
SMTP connect ends Connected with the last error cleared. -/
theorem c5_protocol_client_connect_witness :
    (connect_account_one (Account.new "a" true true)
        ⟨false, false, false⟩ (.failure "imap down") (.failure "pop3 down")
        .success).1.pop3_status = .Failed ∧
      (smtp_connect (Account.new "a" true true) false
          .success).1.smtp_status = .Connected := by
  have h := c5_protocol_client_connect (Account.new "a" true true)
    ⟨false, false, false⟩ false false false "pop3 down" none []
    (.failure "imap down") (.failure "pop3 down") .success
  exact ⟨h.2.2.2.2.1 (by decide), h.2.2.2.2.2.2.2.2.2.2.2.1.1⟩

/-- C4: a `mark_as_read` whose remote step fails returns the error and
leaves the cache untouched, in particular the cached read flag; only
after the remote step succeeds is the cached copy stored with its read
flag set. -/
theorem c4_mark_as_read_atomic (db : Storage) (email : Email)
    (e : String) :
    mark_as_read db (.error e) email = (db, .error e) ∧
      get_email (mark_as_read db (.error e) email).1
          email.account_id email.folder email.id =
        get_email db email.account_id email.folder email.id ∧
      get_email (mark_as_read db (.ok ()) email).1
          email.account_id email.folder email.id =
        some { email with is_read := true } := by
  refine ⟨rfl, rfl, ?_⟩
  exact get_email_store_email_self db { email with is_read := true }

/-- C4 witness: a concrete email; the failing remote leaves the empty
cache empty, the successful remote stores the read copy. -/
theorem c4_mark_as_read_atomic_witness :
    mark_as_read [] (.error "io") Email.new = ([], .error "io") ∧
      get_email (mark_as_read [] (.ok ()) Email.new).1 "" "INBOX" "" =
        some { Email.new with is_read := true } := by
  have h := c4_mark_as_read_atomic [] Email.new "io"
  exact ⟨h.1, h.2.2⟩

/-- C8 counterexample: a POP3 disconnect from the Connected state whose
QUIT write fails on the transport returns an error and leaves the status
at Connected, so `disconnect()` does not always result in Disconnected
regardless of prior state. -/
theorem c8_disconnect_counterexample :
    (pop3_disconnect
        { Account.new "a" false true with pop3_status := .Connected }
        true (.error "broken pipe")).1.pop3_status = .Connected ∧
      ¬ ((pop3_disconnect
          { Account.new "a" false true with pop3_status := .Connected }
          true (.error "broken pipe")).1.pop3_status = .Disconnected) ∧
      (pop3_disconnect
          { Account.new "a" false true with pop3_status := .Connected }
          true (.error "broken pipe")).2.2 = .error "broken pipe" := by
  refine ⟨rfl, ?_, rfl⟩
  intro h
  rw [show (pop3_disconnect
      { Account.new "a" false true with pop3_status := .Connected }
      true (.error "broken pipe")).1.pop3_status =
      ConnectionStatus.Connected from rfl] at h
  exact ConnectionStatus.noConfusion h

/-- C8 as amended: the SMTP disconnect always results in Disconnected
with no error and is idempotent; the POP3 and IMAP disconnects result in
Disconnected with no error whenever no connection is held or the
best-effort QUIT write (resp. logout) succeeds — in particular a second
call after a successful one returns no error and leaves Disconnected —
but when a connection is held and the QUIT write (resp. logout) fails,
the call returns the error and leaves status and connection unchanged. -/
theorem c8_disconnect_amended (a : Account) (conn sess : Bool)
    (q lg : Except String Unit) (e : String) :
    ((smtp_disconnect a).1.smtp_status = .Disconnected ∧
      (smtp_disconnect a).2.2 = .ok () ∧
      (smtp_disconnect (smtp_disconnect a).1).1.smtp_status =
        .Disconnected ∧
      (smtp_disconnect (smtp_disconnect a).1).2.2 = .ok ()) ∧
    (pop3_disconnect a false q =
      ({ a with pop3_status := .Disconnected }, false, .ok ())) ∧
    (pop3_disconnect a conn (.ok ()) =
      ({ a with pop3_status := .Disconnected }, false, .ok ())) ∧
    (pop3_disconnect (pop3_disconnect a conn (.ok ())).1
        (pop3_disconnect a conn (.ok ())).2.1 q =
      ({ a with pop3_status := .Disconnected }, false, .ok ())) ∧
    (pop3_disconnect a true (.error e) = (a, true, .error e)) ∧
    (imap_disconnect a false lg =
      ({ a with imap_status := .Disconnected }, false, .ok ())) ∧
    (imap_disconnect a sess (.ok ()) =
      ({ a with imap_status := .Disconnected }, false, .ok ())) ∧
    (imap_disconnect (imap_disconnect a sess (.ok ())).1
        (imap_disconnect a sess (.ok ())).2.1 lg =
      ({ a with imap_status := .Disconnected }, false, .ok ())) ∧
    (imap_disconnect a true (.error e) = (a, true, .error e)) := by
  refine ⟨⟨rfl, rfl, rfl, rfl⟩, rfl, ?_, ?_, rfl, rfl, ?_, ?_, rfl⟩
  · cases conn <;> rfl
  · cases conn <;> rfl
  · cases sess <;> rfl
  · cases sess <;> rfl

/-- C8 witness: a successful disconnect from Connected followed by a
second disconnect, both ending Disconnected, the second with no error. -/
theorem c8_disconnect_amended_witness :
    pop3_disconnect
        { Account.new "a" false true with pop3_status := .Connected }
        true (.ok ()) =
      ({ Account.new "a" false true with pop3_status := .Disconnected },
        false, .ok ()) ∧
    pop3_disconnect
        (pop3_disconnect
          { Account.new "a" false true with pop3_status := .Connected }
          true (.ok ())).1
        (pop3_disconnect
          { Account.new "a" false true with pop3_status := .Connected }
          true (.ok ())).2.1 (.ok ()) =
      ({ Account.new "a" false true with pop3_status := .Disconnected },
        false, .ok ()) := by
  have h := c8_disconnect_amended
    { Account.new "a" false true with pop3_status := .Connected }
    true false (.ok ()) (.ok ()) "e"
  exact ⟨h.2.2.1, h.2.2.2.1⟩

/-! Preservation lemmas for the health-loop tick. -/

theorem tick_imap_pop3_status (a : Account) (c : Clients)
    (io : ImapConnOutcome) :
    ((tick_imap a c io).1).pop3_status = a.pop3_status := by
  rcases io with fs | e <;> by_cases h : a.has_imap <;>
    simp [tick_imap, imap_connect, h] <;> split_ifs <;> simp_all

theorem tick_imap_has_pop3 (a : Account) (c : Clients)
    (io : ImapConnOutcome) :
    ((tick_imap a c io).1).has_pop3 = a.has_pop3 := by
  rcases io with fs | e <;> by_cases h : a.has_imap <;>
    simp [tick_imap, imap_connect, h] <;> split_ifs <;> simp_all

theorem tick_pop3_imap_status (a : Account) (c : Clients)
    (po : Pop3ConnOutcome) :
    ((tick_pop3 a c po).1).imap_status = a.imap_status := by
  rcases po with cnt | e <;> (try rcases cnt with _ | n) <;>
    by_cases h : a.has_pop3 <;>
    simp [tick_pop3, pop3_connect, h] <;> split_ifs <;> simp_all

theorem tick_smtp_imap_status (a : Account) (c : Clients)
    (so : SmtpConnOutcome) :
    ((tick_smtp a c so).1).imap_status = a.imap_status := by
  rcases so with _ | e <;>
    simp [tick_smtp, smtp_connect] <;> split_ifs <;> simp_all

theorem tick_smtp_pop3_status (a : Account) (c : Clients)
    (so : SmtpConnOutcome) :
    ((tick_smtp a c so).1).pop3_status = a.pop3_status := by
  rcases so with _ | e <;>
    simp [tick_smtp, smtp_connect] <;> split_ifs <;> simp_all

theorem tick_pop3_reconnect (a : Account) (c : Clients) (e : String)
    (cnt : Option Nat) (hp : a.has_pop3 = true)
    (hd : a.pop3_status = .Disconnected) :
    ((tick_pop3 a c (.success cnt)).1).pop3_status = .Connected ∧
      ((tick_pop3 a c (.failure e)).1).pop3_status = .Connecting := by
  constructor <;> simp [tick_pop3, pop3_connect, hp, hd]

theorem tick_imap_reconnect (a : Account) (c : Clients) (e : String)
    (fs : List String) (hp : a.has_imap = true)
    (hd : a.imap_status = .Disconnected) :
    ((tick_imap a c (.success fs)).1).imap_status = .Connected ∧
      ((tick_imap a c (.failure e)).1).imap_status = .Connecting := by
  constructor <;> simp [tick_imap, imap_connect, hp, hd]

/-- C6 counterexample: an account with POP3 configured and Disconnected
whose reconnect attempt fails ends the health-loop tick with status
Connecting, not Disconnected: the failing `connect` sets Connecting
before its attempt and the loop does not reset it. -/
theorem c6_health_loop_counterexample :
    (check_account_connections
        { Account.new "a" false true with smtp_status := .Connected }
        ⟨false, false, false⟩ (.failure "x") (.failure "refused")
        .success).1.pop3_status = .Connecting ∧
      ¬ ((check_account_connections
          { Account.new "a" false true with smtp_status := .Connected }
          ⟨false, false, false⟩ (.failure "x") (.failure "refused")
          .success).1.pop3_status = .Disconnected) := by
  decide

/-- C6 as amended: on a health-loop tick, an account whose retrieval
protocol is configured and Disconnected has a reconnect attempted; if the
reconnect succeeds the status becomes Connected, and if it fails the
status is left at Connecting (the connect attempt moves it to Connecting
and the loop only logs the failure), not at Disconnected. -/
theorem c6_health_loop_reconnect_amended (a : Account) (c : Clients)
    (io : ImapConnOutcome) (po : Pop3ConnOutcome) (so : SmtpConnOutcome)
    (e : String) (cnt : Option Nat) (fs : List String) :
    (a.has_pop3 = true → a.pop3_status = .Disconnected →
      ((check_account_connections a c io (.success cnt) so).1.pop3_status
          = .Connected ∧
        (check_account_connections a c io (.failure e) so).1.pop3_status
          = .Connecting)) ∧
    (a.has_imap = true → a.imap_status = .Disconnected →
      ((check_account_connections a c (.success fs) po so).1.imap_status
          = .Connected ∧
        (check_account_connections a c (.failure e) po so).1.imap_status
          = .Connecting)) := by
  constructor
  · intro hp hd
    have hp1 : ((tick_imap a c io).1).has_pop3 = true :=
      (tick_imap_has_pop3 a c io).trans hp
    have hd1 : ((tick_imap a c io).1).pop3_status = .Disconnected :=
      (tick_imap_pop3_status a c io).trans hd
    have hr := tick_pop3_reconnect (tick_imap a c io).1
      (tick_imap a c io).2 e cnt hp1 hd1
    constructor
    · show (tick_smtp _ _ so).1.pop3_status = .Connected
      rw [tick_smtp_pop3_status]
      exact hr.1
    · show (tick_smtp _ _ so).1.pop3_status = .Connecting
      rw [tick_smtp_pop3_status]
      exact hr.2
  · intro hp hd
    have hr := tick_imap_reconnect a c e fs hp hd
    constructor
    · show (tick_smtp _ _ so).1.imap_status = .Connected
      rw [tick_smtp_imap_status, tick_pop3_imap_status]
      exact hr.1
    · show (tick_smtp _ _ so).1.imap_status = .Connecting
      rw [tick_smtp_imap_status, tick_pop3_imap_status]
      exact hr.2

/-- C6 witness: the amended behaviour at a concrete account, one
succeeding tick and one failing tick. -/
theorem c6_health_loop_reconnect_amended_witness :
    (check_account_connections
        { Account.new "a" false true with smtp_status := .Connected }
        ⟨false, false, false⟩ (.failure "x") (.success (some 2))
        .success).1.pop3_status = .Connected ∧
      (check_account_connections
        { Account.new "a" false true with smtp_status := .Connected }
        ⟨false, false, false⟩ (.failure "x") (.failure "refused")
        .success).1.pop3_status = .Connecting := by
  have h := c6_health_loop_reconnect_amended
    { Account.new "a" false true with smtp_status := .Connected }
    ⟨false, false, false⟩ (.failure "x") (.failure "refused") .success
    "refused" (some 2) []
  exact ⟨(h.1 (by decide) (by decide)).1, (h.1 (by decide) (by decide)).2⟩

/-! Lemmas on storing a fetched batch (`for email in fetched
store_email(email)`). -/

theorem get_email_foldl_store_not_mem (l : List Email) (db : Storage)
    (a f i : String) (h : ∀ x ∈ l, ¬ email_key x = (a, f, i)) :
    get_email (l.foldl store_email db) a f i = get_email db a f i := by
  induction l generalizing db with
  | nil => rfl
  | cons x xs ih =>
    rw [List.foldl_cons,
      ih (store_email db x) (fun y hy => h y (List.mem_cons_of_mem x hy))]
    exact get_email_store_email_other db x a f i
      (fun he => h x (List.mem_cons_self x xs) he.symm)

theorem get_email_foldl_store_unique (l : List Email) (db : Storage)
    (e : Email) (he : e ∈ l)
    (hu : ∀ x ∈ l, email_key x = email_key e → x = e) :
    get_email (l.foldl store_email db) e.account_id e.folder e.id =
      some e := by
  induction l generalizing db with
  | nil => cases he
  | cons x xs ih =>
    rw [List.foldl_cons]
    by_cases hx : e ∈ xs
    · exact ih (store_email db x) hx
        (fun y hy h => hu y (List.mem_cons_of_mem x hy) h)
    · have hxe : x = e := by
        rcases List.mem_cons.mp he with h1 | h1
        · exact h1.symm
        · exact absurd h1 hx
      subst hxe
      have hnone : ∀ y ∈ xs, ¬ email_key y = (x.account_id, x.folder, x.id) := by
        intro y hy hk
        exact hx (hu y (by simp [hy]) hk ▸ hy)
      rw [get_email_foldl_store_not_mem xs (store_email db x)
        x.account_id x.folder x.id hnone]
      exact get_email_store_email_self db x

/-- A POP3 message lacking a Message-ID header gets the empty id from
`Email::parse_from_raw`; two such messages in one fetch share the cache
key. -/
def c2_cex_first : Email :=
  { Email.new with account_id := "acct", subject := "first" }

/-- The second fetched message with the same empty id. -/
def c2_cex_second : Email :=
  { Email.new with account_id := "acct", subject := "second" }

/-- An account with only POP3 configured and connected. -/
def c2_cex_account : Account :=
  { Account.new "acct" false true with pop3_status := .Connected }

/-- C2 counterexample: when a successful fetch returns two messages with
the same (account, folder, id) key, both appear in the returned result
but only the second is retrievable from the cache, so the first fetched
message is not retrievable unchanged by its key. -/
theorem c2_load_emails_counterexample :
    c2_cex_first ∈ (load_emails [] c2_cex_account false true
        (.error "no imap") (.ok [c2_cex_first, c2_cex_second])
        "INBOX").2 ∧
      get_email (load_emails [] c2_cex_account false true
          (.error "no imap") (.ok [c2_cex_first, c2_cex_second])
          "INBOX").1 "acct" "INBOX" "" = some c2_cex_second ∧
      ¬ (c2_cex_second = c2_cex_first) := by
  refine ⟨by decide, by decide, by decide⟩

/-- C2 as amended: `load_emails` first reads the cached messages as the
baseline; when a connected retrieval protocol fetches successfully, every
fetched message is upserted into the cache in order — so every fetched
message whose (account, folder, id) key no other fetched message shares
is retrievable unchanged by its key — and the fetched set replaces the
baseline as the result; when the fetch fails or no retrieval protocol is
connected, the cached baseline is returned; no error is raised on any
path (the function is total and the source returns `Ok` uncondition-
ally). -/
theorem c2_load_emails_amended (db : Storage) (a : Account)
    (ic pc : Bool) (ifetch pfetch : Except String (List Email))
    (folder : String) (fetched : List Email) (e : String) :
    (¬ (a.has_imap = true ∧ a.imap_status = .Connected ∧ ic = true) →
      ¬ (a.has_pop3 = true ∧ a.pop3_status = .Connected ∧ pc = true) →
      load_emails db a ic pc ifetch pfetch folder =
        (db, get_emails db a.id folder)) ∧
    ((a.has_imap = true ∧ a.imap_status = .Connected ∧ ic = true) →
      ifetch = .error e →
      load_emails db a ic pc ifetch pfetch folder =
        (db, get_emails db a.id folder)) ∧
    (¬ (a.has_imap = true ∧ a.imap_status = .Connected ∧ ic = true) →
      (a.has_pop3 = true ∧ a.pop3_status = .Connected ∧ pc = true) →
      pfetch = .error e →
      load_emails db a ic pc ifetch pfetch folder =
        (db, get_emails db a.id folder)) ∧
    ((a.has_imap = true ∧ a.imap_status = .Connected ∧ ic = true) →
      ifetch = .ok fetched →
      (load_emails db a ic pc ifetch pfetch folder =
        (fetched.foldl store_email db, fetched) ∧
      ∀ x ∈ fetched,
        (∀ y ∈ fetched, email_key y = email_key x → y = x) →
        get_email (load_emails db a ic pc ifetch pfetch folder).1
          x.account_id x.folder x.id = some x)) ∧
    (¬ (a.has_imap = true ∧ a.imap_status = .Connected ∧ ic = true) →
      (a.has_pop3 = true ∧ a.pop3_status = .Connected ∧ pc = true) →
      pfetch = .ok fetched →
      (load_emails db a ic pc ifetch pfetch folder =
        (fetched.foldl store_email db, fetched) ∧
      ∀ x ∈ fetched,
        (∀ y ∈ fetched, email_key y = email_key x → y = x) →
        get_email (load_emails db a ic pc ifetch pfetch folder).1
          x.account_id x.folder x.id = some x)) := by
  refine ⟨fun h1 h2 => ?_, fun h1 hf => ?_, fun h1 h2 hf => ?_,
    fun h1 hf => ?_, fun h1 h2 hf => ?_⟩
  · unfold load_emails
    rw [if_neg (fun hc => h1 ⟨hc.1, hc.2.1, hc.2.2⟩),
      if_neg (fun hc => h2 ⟨hc.1, hc.2.1, hc.2.2⟩)]
  · obtain ⟨hi1, hi2, hi3⟩ := h1
    subst hf
    unfold load_emails
    rw [if_pos ⟨hi1, hi2, hi3⟩]
  · obtain ⟨hp1, hp2, hp3⟩ := h2
    subst hf
    unfold load_emails
    rw [if_neg (fun hc => h1 ⟨hc.1, hc.2.1, hc.2.2⟩),
      if_pos ⟨hp1, hp2, hp3⟩]
  · obtain ⟨hi1, hi2, hi3⟩ := h1
    subst hf
    have heq : load_emails db a ic pc (.ok fetched) pfetch folder =
        (fetched.foldl store_email db, fetched) := by
      unfold load_emails
      rw [if_pos ⟨hi1, hi2, hi3⟩]
    refine ⟨heq, fun x hx hu => ?_⟩
    rw [heq]
    exact get_email_foldl_store_unique fetched db x hx hu
  · obtain ⟨hp1, hp2, hp3⟩ := h2
    subst hf
    have heq : load_emails db a ic pc ifetch (.ok fetched) folder =
        (fetched.foldl store_email db, fetched) := by
      unfold load_emails
      rw [if_neg (fun hc => h1 ⟨hc.1, hc.2.1, hc.2.2⟩),
        if_pos ⟨hp1, hp2, hp3⟩]
    refine ⟨heq, fun x hx hu => ?_⟩
    rw [heq]
    exact get_email_foldl_store_unique fetched db x hx hu

/-- C2 witness: a POP3-connected account fetching two messages with
distinct ids; the result is the fetched pair and each is retrievable
unchanged from the cache by its key. -/
theorem c2_load_emails_amended_witness :
    load_emails [] c2_cex_account false true (.error "no imap")
        (.ok [{ c2_cex_first with id := "1" },
          { c2_cex_second with id := "2" }]) "INBOX" =
      ([{ c2_cex_first with id := "1" },
          { c2_cex_second with id := "2" }].foldl store_email [],
        [{ c2_cex_first with id := "1" },
          { c2_cex_second with id := "2" }]) ∧
      get_email (load_emails [] c2_cex_account false true
          (.error "no imap")
          (.ok [{ c2_cex_first with id := "1" },
            { c2_cex_second with id := "2" }]) "INBOX").1
        "acct" "INBOX" "1" = some { c2_cex_first with id := "1" } := by
  have h := (c2_load_emails_amended [] c2_cex_account false true
    (.error "no imap")
    (.ok [{ c2_cex_first with id := "1" }, { c2_cex_second with id := "2" }])
    "INBOX"
    [{ c2_cex_first with id := "1" }, { c2_cex_second with id := "2" }]
    "no imap").2.2.2.2 (by decide) (by decide) rfl
  exact ⟨h.1, h.2 { c2_cex_first with id := "1" } (by decide) (by decide)⟩

instance {ε α : Type} [DecidableEq ε] [DecidableEq α] :
    DecidableEq (Except ε α) := fun x y =>
  match x, y with
  | .ok a, .ok b =>
    if h : a = b then .isTrue (h ▸ rfl)
    else .isFalse (fun hc => h (Except.ok.inj hc))
  | .error a, .error b =>
    if h : a = b then .isTrue (h ▸ rfl)
    else .isFalse (fun hc => h (Except.error.inj hc))
  | .ok _, .error _ => .isFalse (fun hc => Except.noConfusion hc)
  | .error _, .ok _ => .isFalse (fun hc => Except.noConfusion hc)

/-- The 1-based message numbers visited by the RETR loop of
`Pop3Client::fetch_emails` (src/protocols/pop3.rs, lines 319-330):
`start = count - limit` when `count > limit` else `0`, and the loop runs
`for i in start..count` on `i + 1`. -/
def pop3_fetch_window (count limit : Nat) : List Nat :=
  let start := if count > limit then count - limit else 0
  (List.range (count - start)).map (fun i => start + i + 1)

theorem pop3_fetch_window_eq (count limit : Nat) :
    pop3_fetch_window count limit =
      (List.range (min limit count)).map
        (fun i => count - min limit count + i + 1) := by
  simp only [pop3_fetch_window]
  have hstart : (if count > limit then count - limit else 0) =
      count - min limit count := by
    split_ifs with h <;> omega
  rw [hstart]
  have hlen : count - (count - min limit count) = min limit count := by
    omega
  rw [hlen]

theorem pop3_fetch_window_length (count limit : Nat) :
    (pop3_fetch_window count limit).length = min limit count := by
  rw [pop3_fetch_window_eq]
  simp

theorem pop3_fetch_window_mem (count limit n : Nat)
    (h : n ∈ pop3_fetch_window count limit) :
    count - min limit count < n ∧ n ≤ count := by
  rw [pop3_fetch_window_eq] at h
  simp only [List.mem_map, List.mem_range] at h
  obtain ⟨i, hi, rfl⟩ := h
  omega

/-- A connected fetch whose STAT reply reports `N` messages updates both
counts to `N` and RETRs exactly the message numbers of the window. -/
theorem fetch_emails_stat_ok (a : Account) (stat : String) (N limit : Nat)
    (retr : Nat → RetrOutcome) (hstat : parse_stat stat = .ok N) :
    fetch_emails a true stat retr limit =
      ({ a with total_count := N, unread_count := N },
        .ok (sort_emails ((pop3_fetch_window N limit).filterMap (fun n =>
          match retr n with
          | .success e =>
            some { e with account_id := a.id, folder := "INBOX" }
          | .rejected _ => none
          | .parse_failure => none)))) := by
  unfold fetch_emails
  rw [hstat]
  rw [show pop3_fetch_window N limit =
    (List.range (N - (if N > limit then N - limit else 0))).map
      (fun i => (if N > limit then N - limit else 0) + i + 1) from rfl]
  rw [List.filterMap_map]
  simp [Function.comp_def]

theorem filterMap_retr_all_success (l : List Nat)
    (retr : Nat → RetrOutcome) (msgs : Nat → Email) (g : Email → Email)
    (hretr : ∀ n, retr n = .success (msgs n)) :
    l.filterMap (fun n =>
        match retr n with
        | .success e => some (g e)
        | .rejected _ => none
        | .parse_failure => none) =
      l.map (fun n => g (msgs n)) := by
  induction l with
  | nil => rfl
  | cons x xs ih =>
    simp only [List.filterMap_cons, hretr x, ih, List.map_cons]

/-- C7: a connected POP3 session reporting `N` total messages, all of
whose RETR exchanges succeed, yields exactly the messages with the
highest `min(limit, N)` message numbers, sorted newest-first by date with
the stable tie-break preserving server order for equal dates, and writes
`N` into both `total_count` and `unread_count`. -/
theorem c7_fetch_emails_newest_first (a : Account) (stat : String)
    (N limit : Nat) (retr : Nat → RetrOutcome) (msgs : Nat → Email)
    (hstat : parse_stat stat = .ok N)
    (hretr : ∀ n, retr n = .success (msgs n)) :
    (fetch_emails a true stat retr limit).2 =
      .ok (sort_emails ((pop3_fetch_window N limit).map
        (fun n =>
          { msgs n with account_id := a.id, folder := "INBOX" }))) ∧
    (pop3_fetch_window N limit).length = min limit N ∧
    (∀ n ∈ pop3_fetch_window N limit, N - min limit N < n ∧ n ≤ N) ∧
    List.Perm
      (sort_emails ((pop3_fetch_window N limit).map
        (fun n =>
          { msgs n with account_id := a.id, folder := "INBOX" })))
      ((pop3_fetch_window N limit).map
        (fun n =>
          { msgs n with account_id := a.id, folder := "INBOX" })) ∧
    (sort_emails ((pop3_fetch_window N limit).map
      (fun n =>
        { msgs n with account_id := a.id, folder := "INBOX" }))).Pairwise
      dateGe ∧
    (∀ d, (sort_emails ((pop3_fetch_window N limit).map
        (fun n =>
          { msgs n with account_id := a.id, folder := "INBOX" }))).filter (fun x => x.date == d) =
      ((pop3_fetch_window N limit).map
        (fun n =>
          { msgs n with account_id := a.id, folder := "INBOX" })).filter (fun x => x.date == d)) ∧
    (fetch_emails a true stat retr limit).1.total_count = N ∧
    (fetch_emails a true stat retr limit).1.unread_count = N := by
  have hconv := filterMap_retr_all_success (pop3_fetch_window N limit)
    retr msgs
    (fun e => { e with account_id := a.id, folder := "INBOX" }) hretr
  have hmain := fetch_emails_stat_ok a stat N limit retr hstat
  refine ⟨?_, pop3_fetch_window_length N limit,
    fun n hn => pop3_fetch_window_mem N limit n hn,
    sort_emails_perm _, sort_emails_sorted _,
    fun d => sort_emails_filter_date d _, ?_, ?_⟩
  · rw [hmain]
    rw [show (({ a with total_count := N, unread_count := N },
      .ok (sort_emails ((pop3_fetch_window N limit).filterMap (fun n =>
        match retr n with
        | .success e =>
          some { e with account_id := a.id, folder := "INBOX" }
        | .rejected _ => none
        | .parse_failure => none)))) :
        Account × Except String (List Email)).2 =
      .ok (sort_emails ((pop3_fetch_window N limit).filterMap (fun n =>
        match retr n with
        | .success e =>
          some { e with account_id := a.id, folder := "INBOX" }
        | .rejected _ => none
        | .parse_failure => none))) from rfl]
    rw [hconv]
  · rw [hmain]
  · rw [hmain]

/-- The toy POP3 mailbox of the end-to-end scenario: message `n` carries
date `n`. -/
def c7_msgs : Nat → Email := fun n => { Email.new with date := n }

/-- Every RETR succeeds and parses. -/
def c7_retr : Nat → RetrOutcome := fun n => .success (c7_msgs n)

/-- An account with only POP3 configured, connected. -/
def c7_account : Account :=
  { Account.new "acct" false true with pop3_status := .Connected }

/-- C7 witness: STAT replies `+OK 3 450`, limit 2: exactly messages 2 and
3 come back, newest first, and both counts become 3. -/
theorem c7_fetch_emails_newest_first_witness :
    (fetch_emails c7_account true "+OK 3 450" c7_retr 2).2 =
      .ok [{ c7_msgs 3 with account_id := "acct", folder := "INBOX" },
        { c7_msgs 2 with account_id := "acct", folder := "INBOX" }] ∧
      (fetch_emails c7_account true "+OK 3 450" c7_retr 2).1.total_count
        = 3 ∧
      (fetch_emails c7_account true "+OK 3 450" c7_retr 2).1.unread_count
        = 3 := by
  have h := c7_fetch_emails_newest_first c7_account "+OK 3 450" 3 2
    c7_retr c7_msgs (by decide) (fun n => rfl)
  exact ⟨h.1.trans (by decide), h.2.2.2.2.2.2.1, h.2.2.2.2.2.2.2⟩

/-- Whether a RETR exchange produced a stored message. -/
def retr_is_success : RetrOutcome → Bool
  | .success _ => true
  | .rejected _ => false
  | .parse_failure => false

theorem filterMap_retr_length (l : List Nat) (retr : Nat → RetrOutcome)
    (g : Email → Email) :
    (l.filterMap (fun n =>
        match retr n with
        | .success e => some (g e)
        | .rejected _ => none
        | .parse_failure => none)).length =
      (l.filter (fun n => retr_is_success (retr n))).length := by
  induction l with
  | nil => rfl
  | cons x xs ih =>
    cases hx : retr x <;>
      simp [List.filterMap_cons, List.filter_cons, hx, retr_is_success,
        ih]

/-- The message whose RETR succeeds in the C10 scenario. -/
def c10_good : Email := { Email.new with date := 2 }

/-- RETR replies for the C10 scenario: message 1 gets a negative reply,
message 2 succeeds, message 3 fails to parse. -/
def c10_retr : Nat → RetrOutcome := fun n =>
  if n = 2 then .success c10_good
  else if n = 1 then .rejected "-ERR no such message"
  else .parse_failure

/-- An account with only POP3 configured, connected. -/
def c10_account : Account :=
  { Account.new "acct" false true with pop3_status := .Connected }

/-- C10: a message whose RETR gets a negative reply or whose bytes fail
to parse is skipped rather than failing the fetch: the call returns `Ok`
with exactly the successfully parsed messages, whose number can be
strictly below `min(limit, N)` (a concrete run with one negative reply
and one parse failure among three messages returns a single message). -/
theorem c10_fetch_emails_skips (a : Account) (stat : String)
    (N limit : Nat) (retr : Nat → RetrOutcome)
    (hstat : parse_stat stat = .ok N) :
    (∃ emails, (fetch_emails a true stat retr limit).2 = .ok emails ∧
      emails.length =
        ((pop3_fetch_window N limit).filter
          (fun n => retr_is_success (retr n))).length ∧
      emails.length ≤ min limit N) ∧
    (fetch_emails c10_account true "+OK 3 450" c10_retr 3).2 =
      .ok [{ c10_good with account_id := "acct", folder := "INBOX" }] ∧
    1 < min 3 3 := by
  refine ⟨?_, by decide, by decide⟩
  have hmain := fetch_emails_stat_ok a stat N limit retr hstat
  refine ⟨sort_emails ((pop3_fetch_window N limit).filterMap (fun n =>
    match retr n with
    | .success e => some { e with account_id := a.id, folder := "INBOX" }
    | .rejected _ => none
    | .parse_failure => none)), by rw [hmain], ?_, ?_⟩
  · rw [(sort_emails_perm _).length_eq]
    exact filterMap_retr_length (pop3_fetch_window N limit) retr
      (fun e => { e with account_id := a.id, folder := "INBOX" })
  · rw [(sort_emails_perm _).length_eq]
    calc (List.filterMap _ (pop3_fetch_window N limit)).length
        ≤ (pop3_fetch_window N limit).length :=
          List.length_filterMap_le _ _
      _ = min limit N := pop3_fetch_window_length N limit

/-- C10 witness: the C10 scenario returns `Ok` with one message although
the window holds three. -/
theorem c10_fetch_emails_skips_witness :
    ∃ emails,
      (fetch_emails c10_account true "+OK 3 450" c10_retr 3).2 =
        .ok emails ∧ emails.length = 1 := by
  obtain ⟨emails, h1, h2, h3⟩ :=
    (c10_fetch_emails_skips c10_account "+OK 3 450" 3 3 c10_retr
      (by decide)).1
  exact ⟨emails, h1, by rw [h2]; decide⟩

end Linksy
